import Mathlib

/-!
Verification development for the Windows desktop updater plugin
(src/windows/desktop_updater_plugin.cpp).

The plugin has two halves:

1. The in-process half (RestartApp, createBatFile, runBatFile,
   HandleMethodCall): ordinary C++ that writes a batch script
   (the executor artifact, file name update_script.bat), spawns
   cmd.exe on it and terminates the current process, and answers
   the RPC methods getPlatformVersion, getExecutablePath,
   getCurrentVersion, restartApp.

2. The Deferred Executor: the batch script generated by
   createBatFile (source lines 113-215).  It is a five step state
   machine: WAIT_EXIT (poll tasklist once a second until taskkill;
   the script intends MAX_WAIT_ATTEMPTS = 5 polls, but cmd.exe
   expands the percent-COUNT reference inside the parenthesized
   if-block at parse time, before the set /a increment of the same
   block executes, and the script never enables delayed expansion,
   so the GEQ test compares the pre-increment value and the kill
   only fires at the sixth consecutive running poll), BACKUP
   (mirror the
   top level files and directories of the installation root into
   backup\, excluding the names backup, update_script.bat for
   files and backup, update for directories), APPLY (xcopy the
   update\ staging directory over the root, up to
   MAX_RETRY_ATTEMPTS = 3 attempts with RETRY_DELAY_SECONDS = 2
   between attempts), ROLLBACK (xcopy backup\ back over the root,
   then remove backup\), CLEANUP (remove update\, start the
   executable, delete update_script.bat).

The embedding below gives the batch script two complementary
models, both read off line by line from the generated script text:

* an event trace model (runWait, runApply, runExecutor) recording
  polls, delays, kills, apply attempts, the rollback copy, backup
  creation and deletion, staging removal, the relaunch and the
  artifact deletion, together with a snapshot of backup existence
  at the entry of every phase;

* a filesystem model (RootFS, backupOf, overlayFS, runApplyFS,
  deferredExecutorFS) in which the installation root is a map
  from top level names to file contents and directory trees, the
  backup is the filtered copy the BACKUP step makes, and xcopy is
  an overlay (entries of the source override, others persist).

Failures of individual copy commands are discarded by the script
(every command ends in >NUL 2>&1), so the models treat the backup
and rollback copies as succeeding; the apply step, whose
ERRORLEVEL the script does inspect, is driven by an oracle.
-/

namespace DesktopUpdater

/-- Constant from createBatFile, line 109: MAX_WAIT_ATTEMPTS. -/
def MAX_WAIT_ATTEMPTS : Nat := 5

/-- Constant from createBatFile, line 110: MAX_RETRY_ATTEMPTS. -/
def MAX_RETRY_ATTEMPTS : Nat := 3

/-- Constant from createBatFile, line 111: RETRY_DELAY_SECONDS. -/
def RETRY_DELAY_SECONDS : Nat := 2

/-- The wait loop delay is the literal 1 in the script line
timeout /t 1 /nobreak (line 135). -/
def WAIT_INTERVAL_SECONDS : Nat := 1

/-- Parameters embedded literally into the batch script by
createBatFile: the staging directory, the destination directory,
the executable image name and the full executable path.
RestartApp (lines 279-283) instantiates them with update, ., and
the running module path. -/
structure BatParams where
  updateDir : String
  destDir : String
  exeName : String
  exePath : String
deriving DecidableEq

/-- Observable actions of the Deferred Executor script. -/
inductive Event where
  /-- One tasklist poll for the image name (line 126). -/
  | poll (img : String)
  /-- timeout /t n between polls (line 135). -/
  | waitDelay (seconds : Nat)
  /-- taskkill /F /IM img (line 132). -/
  | forceKill (img : String)
  /-- mkdir backup and the backup copy loops (lines 148-167). -/
  | backupCreated
  /-- One xcopy of the staging directory over the root, attempt n,
  1-based (line 177). -/
  | applyAttempt (n : Nat)
  /-- timeout /t n between apply attempts (line 185). -/
  | retryDelay (seconds : Nat)
  /-- xcopy backup back over the root (line 194). -/
  | rollbackCopy
  /-- rmdir /s /q backup (line 180 on success, line 200 after
  rollback). -/
  | backupDeleted
  /-- rmdir /S /Q of the staging directory (line 207). -/
  | removeStaging (d : String)
  /-- start /MAX of the executable (line 209). -/
  | relaunch (exe : String)
  /-- del update_script.bat (line 212). -/
  | deleteArtifact
deriving DecidableEq

/-- The five states of the Deferred Executor plus a terminal
marker, matching the STEP 1/5 .. 5/5 sections of the script. -/
inductive Phase where
  | waitExit
  | backupP
  | applyP
  | rollbackP
  | cleanupP
  | doneP
deriving DecidableEq

/-- Snapshot taken at the entry of a phase: which phase, and
whether the backup directory exists at that moment. -/
structure Snap where
  phase : Phase
  backupExists : Bool
deriving DecidableEq

/-- Oracles for the two outcomes the script actually inspects:
whether tasklist still lists the application at the n-th poll
(0-based), and whether the n-th xcopy apply attempt (1-based)
exits with ERRORLEVEL 0. -/
structure Env where
  appRunning : Nat → Bool
  applyOk : Nat → Bool

/-- The literal batch script text produced by createBatFile
(source lines 113-215), with the same parameter and constant
splices.  The two semantic models below (runExecutor and
deferredExecutorFS) are line by line readings of this text. -/
def batScript (P : BatParams) : String :=
  "@echo off\n" ++
  "chcp 65001 > NUL\n" ++
  "echo.\n" ++
  "echo ==========================================\n" ++
  "echo        Application Update Process\n" ++
  "echo ==========================================\n" ++
  "echo.\n" ++
  "echo [STEP 1/5] Waiting for application to close...\n" ++
  "set COUNT=0\n" ++
  ":wait_loop\n" ++
  "tasklist /FI \"IMAGENAME eq " ++ P.exeName ++ "\" 2>NUL | find /I \"" ++
    P.exeName ++ "\" >NUL\n" ++
  "if \"%ERRORLEVEL%\"==\"0\" (\n" ++
  "    set /a COUNT+=1\n" ++
  "    echo   Attempt %COUNT%/" ++ toString MAX_WAIT_ATTEMPTS ++
    " - Application still running...\n" ++
  "    if %COUNT% GEQ " ++ toString MAX_WAIT_ATTEMPTS ++ " (\n" ++
  "        echo   Timeout reached - force closing application\n" ++
  "        taskkill /F /IM \"" ++ P.exeName ++ "\" >NUL 2>&1\n" ++
  "        goto step2\n" ++
  "    )\n" ++
  "    timeout /t 1 /nobreak > NUL\n" ++
  "    goto wait_loop\n" ++
  ")\n" ++
  "echo   Application closed successfully\n" ++
  "echo.\n" ++
  ":step2\n" ++
  "echo [STEP 2/5] Creating backup restore point...\n" ++
  "if exist backup (\n" ++
  "    echo   Removing old backup...\n" ++
  "    rmdir /s /q backup >NUL 2>&1\n" ++
  ")\n" ++
  "mkdir backup >NUL 2>&1\n" ++
  "echo   Backing up application files...\n" ++
  "for %%F in (*) do (\n" ++
  "    if not \"%%F\"==\"backup\" (\n" ++
  "        if not \"%%F\"==\"update_script.bat\" (\n" ++
  "            copy \"%%F\" \"backup\\%%F\" >NUL 2>&1\n" ++
  "        )\n" ++
  "    )\n" ++
  ")\n" ++
  "for /D %%D in (*) do (\n" ++
  "    if not \"%%D\"==\"backup\" (\n" ++
  "        if not \"%%D\"==\"update\" (\n" ++
  "            xcopy /E /H /C /I /Y \"%%D\" \"backup\\%%D\\\" >NUL 2>&1\n" ++
  "        )\n" ++
  "    )\n" ++
  ")\n" ++
  "echo   Backup completed successfully\n" ++
  "echo.\n" ++
  "echo [STEP 3/5] Applying update...\n" ++
  "set RETRY=0\n" ++
  ":retry_copy\n" ++
  "set /a RETRY+=1\n" ++
  "echo   Update attempt %RETRY%/" ++ toString MAX_RETRY_ATTEMPTS ++
    "...\n" ++
  "xcopy /E /I /Y \"" ++ P.updateDir ++ "\\*\" \"" ++ P.destDir ++
    "\\\" >NUL 2>&1\n" ++
  "if %ERRORLEVEL% EQU 0 (\n" ++
  "    echo   Update applied successfully\n" ++
  "    rmdir /s /q backup >NUL 2>&1\n" ++
  "    goto cleanup\n" ++
  ")\n" ++
  "if %RETRY% LSS " ++ toString MAX_RETRY_ATTEMPTS ++ " (\n" ++
  "    echo   Update failed - retrying in " ++
    toString RETRY_DELAY_SECONDS ++ " seconds...\n" ++
  "    timeout /t " ++ toString RETRY_DELAY_SECONDS ++ " /nobreak > NUL\n" ++
  "    goto retry_copy\n" ++
  ")\n" ++
  "echo   All update attempts failed\n" ++
  "echo.\n" ++
  "echo [STEP 4/5] Restoring from backup...\n" ++
  "echo   Update failed - restoring previous version\n" ++
  "xcopy /E /H /C /I /Y backup\\*.* . >NUL 2>&1\n" ++
  "if %ERRORLEVEL% EQU 0 (\n" ++
  "    echo   Backup restored successfully\n" ++
  ") else (\n" ++
  "    echo   WARNING: Some files may not have been restored properly\n" ++
  ")\n" ++
  "rmdir /s /q backup >NUL 2>&1\n" ++
  "echo.\n" ++
  ":cleanup\n" ++
  "echo [STEP 5/5] Cleanup and restart...\n" ++
  "echo   Removing update files...\n" ++
  "rmdir /S /Q \"" ++ P.updateDir ++ "\" >NUL 2>&1\n" ++
  "echo   Starting application in foreground...\n" ++
  "start /MAX \"\" \"" ++ P.exePath ++ "\"\n" ++
  "timeout /t 1 /nobreak > NUL\n" ++
  "echo   Cleaning up temporary files...\n" ++
  "del update_script.bat >NUL 2>&1\n" ++
  "echo.\n" ++
  "echo Update process completed.\n" ++
  "exit\n"

def isPoll : Event → Bool
  | Event.poll _ => true
  | _ => false

def isWaitDelay : Event → Bool
  | Event.waitDelay _ => true
  | _ => false

def isForceKill : Event → Bool
  | Event.forceKill _ => true
  | _ => false

def isApplyAttempt : Event → Bool
  | Event.applyAttempt _ => true
  | _ => false

def isRetryDelay : Event → Bool
  | Event.retryDelay _ => true
  | _ => false

def isRelaunch : Event → Bool
  | Event.relaunch _ => true
  | _ => false

def isRemoveStaging : Event → Bool
  | Event.removeStaging _ => true
  | _ => false

/-- STEP 1 of the script (lines 122-139).  COUNT starts at 0; each
iteration polls tasklist; if the image is found, the parenthesized
block runs: set /a COUNT+=1, then the GEQ test against
MAX_WAIT_ATTEMPTS, then a one second sleep and goto wait_loop; if
the image is not found the script falls through to step2.
Crucially, cmd.exe expands every percent-COUNT reference of the
parenthesized block when the whole block is parsed, BEFORE the
set /a increment of that same iteration executes, and the script
never enables delayed expansion; so at the k-th running poll the
GEQ test compares k - 1 (the pre-increment COUNT) against
MAX_WAIT_ATTEMPTS, and taskkill first fires at the poll numbered
MAX_WAIT_ATTEMPTS + 1.  Here idx is the 0-based poll index and r+1
is the number of polls still possible before the kill: the r = 0
branch is the iteration whose parse-time COUNT equals
MAX_WAIT_ATTEMPTS.  The caller starts with budget
MAX_WAIT_ATTEMPTS + 1, giving up to six polls for the constant 5
of the source. -/
def runWait (env : Env) (img : String) (idx : Nat) : Nat → List Event
  | 0 => []
  | r + 1 =>
    if env.appRunning idx then
      if r = 0 then [Event.poll img, Event.forceKill img]
      else Event.poll img :: Event.waitDelay WAIT_INTERVAL_SECONDS ::
        runWait env img (idx + 1) r
    else [Event.poll img]

/-- STEP 3 of the script (lines 171-189).  RETRY starts at 0 and
is incremented before each xcopy; on ERRORLEVEL 0 the script
deletes the backup and goes to cleanup; otherwise, while RETRY LSS
MAX_RETRY_ATTEMPTS, it sleeps RETRY_DELAY_SECONDS and retries; the
final failure falls through to STEP 4.  i is the 1-based attempt
number, remaining the attempts still allowed; the returned Bool is
true exactly when some attempt exited with ERRORLEVEL 0. -/
def runApply (env : Env) (i : Nat) : Nat → List Event × Bool
  | 0 => ([], false)
  | r + 1 =>
    if env.applyOk i then ([Event.applyAttempt i], true)
    else if r = 0 then ([Event.applyAttempt i], false)
    else
      let rest := runApply env (i + 1) r
      (Event.applyAttempt i :: Event.retryDelay RETRY_DELAY_SECONDS :: rest.1,
        rest.2)

/-- Whole run of the Deferred Executor script, as the event trace
and the phase entry snapshots.  b0 says whether a backup directory
already exists when the script starts (STEP 2 removes a stale one
before mkdir, lines 144-148).  On apply success the script deletes
the backup and jumps straight to cleanup (lines 178-182); on final
apply failure it falls through STEP 4 (rollback copy, backup
deletion, lines 192-200) into cleanup.  CLEANUP (lines 203-215)
removes the staging directory, starts the executable and deletes
the script itself, in that order. -/
def runExecutor (P : BatParams) (env : Env) (b0 : Bool) :
    List Event × List Snap :=
  let waitEvs := runWait env P.exeName 0 (MAX_WAIT_ATTEMPTS + 1)
  let ar := runApply env 1 MAX_RETRY_ATTEMPTS
  let cleanupEvs := [Event.removeStaging P.updateDir,
    Event.relaunch P.exePath, Event.deleteArtifact]
  if ar.2 then
    (waitEvs ++ Event.backupCreated :: ar.1 ++
      Event.backupDeleted :: cleanupEvs,
     [⟨Phase.waitExit, b0⟩, ⟨Phase.backupP, b0⟩, ⟨Phase.applyP, true⟩,
      ⟨Phase.cleanupP, false⟩, ⟨Phase.doneP, false⟩])
  else
    (waitEvs ++ Event.backupCreated :: ar.1 ++
      Event.rollbackCopy :: Event.backupDeleted :: cleanupEvs,
     [⟨Phase.waitExit, b0⟩, ⟨Phase.backupP, b0⟩, ⟨Phase.applyP, true⟩,
      ⟨Phase.rollbackP, true⟩, ⟨Phase.cleanupP, false⟩,
      ⟨Phase.doneP, false⟩])

/-- A directory tree one level below the installation root: a map
from relative paths inside the directory to file contents (byte
lists). -/
def DirTree : Type := String → Option (List Nat)

/-- The installation root as the batch script sees it: the
top level files and the top level directories (the two for loops
of STEP 2 treat them separately). -/
structure RootFS where
  files : String → Option (List Nat)
  dirs : String → Option DirTree

/-- STEP 2 of the script, lines 152-167.  The file loop copies
every top level file whose name is neither backup nor
update_script.bat into backup\; the directory loop xcopies every
top level directory whose name is neither backup nor update into
backup\.  Note the directory loop also excludes update, the
staging directory. -/
def backupOf (fs : RootFS) : RootFS :=
  { files := fun n =>
      if n = "backup" then none
      else if n = "update_script.bat" then none
      else fs.files n,
    dirs := fun n =>
      if n = "backup" then none
      else if n = "update" then none
      else fs.dirs n }

/-- Merge of a directory tree over an optional existing one:
xcopy /E /Y overwrites files present in the source and keeps the
destination files the source does not mention. -/
def mergeTree (old : Option DirTree) (t : DirTree) : DirTree :=
  fun p =>
    match t p with
    | some c => some c
    | none =>
      match old with
      | some t0 => t0 p
      | none => none

/-- Semantics of xcopy /E /I /Y src\* dst\ at the root: every
top level file and directory of the overlay replaces or merges
into the base, entries absent from the overlay persist.  Used both
for the APPLY copy (line 177, overlay = staging content) and the
ROLLBACK copy (line 194, overlay = backup content). -/
def overlayFS (base over : RootFS) : RootFS :=
  { files := fun n =>
      match over.files n with
      | some c => some c
      | none => base.files n,
    dirs := fun n =>
      match over.dirs n with
      | some t => some (mergeTree (base.dirs n) t)
      | none => base.dirs n }

/-- Filesystem level oracles: applyOk as in Env, and applyEffect
giving the (partial, arbitrary) state of the root after a FAILED
xcopy attempt; a failed xcopy may have copied any subset before
failing. -/
structure FsEnv where
  applyOk : Nat → Bool
  applyEffect : Nat → RootFS → RootFS

/-- STEP 3 at the filesystem level, same control flow as runApply:
a successful attempt overlays the staging package over the current
root, a failed attempt leaves the oracle-chosen partial state and
either retries or gives up. -/
def runApplyFS (env : FsEnv) (pkg : RootFS) (i : Nat) :
    Nat → RootFS → RootFS × Bool
  | 0, cur => (cur, false)
  | r + 1, cur =>
    if env.applyOk i then (overlayFS cur pkg, true)
    else if r = 0 then (env.applyEffect i cur, false)
    else runApplyFS env pkg (i + 1) r (env.applyEffect i cur)

/-- Filesystem outcome of one run of the Deferred Executor: take
the backup, run the apply attempts; on success the backup is
simply deleted (line 180), on final failure the backup content is
xcopied back over the root (line 194) and then deleted (line 200).
The returned Bool is true on the apply-success path. -/
def deferredExecutorFS (env : FsEnv) (root0 pkg : RootFS) :
    RootFS × Bool :=
  let bak := backupOf root0
  let res := runApplyFS env pkg 1 MAX_RETRY_ATTEMPTS root0
  if res.2 then (res.1, true)
  else (overlayFS res.1 bak, false)

/-- Outcome of the in-process half of restartApp, source lines
217-225 (createBatFile file write), 234-263 (runBatFile) and
265-290 (RestartApp). -/
structure SysOutcome where
  /-- The ofstream on update_script.bat opened and the script text
  was written (lines 218-221). -/
  artifactWritten : Bool
  /-- The cerr message of line 224 was printed. -/
  writeErrorLogged : Bool
  /-- CreateProcess on cmd.exe /c update_script.bat was called
  (line 241); RestartApp always reaches runBatFile. -/
  spawnAttempted : Bool
  /-- CreateProcess returned nonzero (line 254). -/
  spawnSucceeded : Bool
  /-- The cerr message of line 261 was printed. -/
  spawnErrorLogged : Bool
  /-- ExitProcess(0) was reached (line 289). -/
  processTerminated : Bool
  /-- Error code surfaced to the RPC caller through
  result->Error; the restartApp branch of HandleMethodCall (lines
  314-318) only ever calls RestartApp then result->Success. -/
  surfacedError : Option String
deriving DecidableEq

/-- Host environment for the in-process half: whether the script
file can be opened for writing, and whether CreateProcess
succeeds. -/
structure SysEnv where
  canWriteArtifact : Bool
  canSpawn : Bool
deriving DecidableEq

/-- Shallow embedding of RestartApp (lines 265-290) as invoked by
the restartApp method (lines 314-318): createBatFile writes the
artifact or logs to cerr and returns either way; runBatFile calls
CreateProcess and logs to cerr on failure, returning void; then
ExitProcess(0) runs unconditionally.  No branch calls
result->Error. -/
def restartApp (env : SysEnv) : SysOutcome :=
  { artifactWritten := env.canWriteArtifact,
    writeErrorLogged := !env.canWriteArtifact,
    spawnAttempted := true,
    spawnSucceeded := env.canSpawn,
    spawnErrorLogged := !env.canSpawn,
    processTerminated := true,
    surfacedError := none }

/-- Result of one RPC method call, as flutter MethodResult is used
in this plugin: Success with a string value, or Error with a code
and a message. -/
inductive MethodResult where
  | success (value : String)
  | methodError (code : String) (message : String)
deriving DecidableEq

/-- Inputs that determine getCurrentVersion: the outcomes of the
four Win32 version queries (lines 340-379) and the product
version string the last query yields (line 381). -/
structure VersionInfo where
  verSizeOk : Bool
  verInfoOk : Bool
  translationOk : Bool
  queryOk : Bool
  productVersion : List Char

/-- Index of the first occurrence of the plus separator, mirroring
productVersion.find of line 382 (none plays npos). -/
def findPlusIdx : List Char → Option Nat
  | [] => none
  | c :: cs =>
    if c = '+' then some 0
    else (findPlusIdx cs).map (fun k => k + 1)

/-- buildNumber.erase(buildNumber.find_last_not_of(space) + 1) of
line 388: drop the trailing spaces. -/
def trimTrailing (s : List Char) : List Char :=
  (s.reverse.dropWhile (fun c => c = ' ')).reverse

/-- Shallow embedding of the getCurrentVersion branch of
HandleMethodCall, lines 331-401: four guarded Win32 queries each
failing with its own VersionError, then the plus-separator parse
(find the plus, require a character after it, take the substring
after the plus and trim trailing spaces). -/
def getCurrentVersion (v : VersionInfo) : MethodResult :=
  if v.verSizeOk = false then
    MethodResult.methodError "VersionError" "Unable to get version size."
  else if v.verInfoOk = false then
    MethodResult.methodError "VersionError" "Unable to get version info."
  else if v.translationOk = false then
    MethodResult.methodError "VersionError" "Unable to get translation info."
  else if v.queryOk = false then
    MethodResult.methodError "VersionError" "Unable to query version value."
  else
    match findPlusIdx v.productVersion with
    | some p =>
      if p + 1 < v.productVersion.length then
        MethodResult.success
          (String.mk (trimTrailing (v.productVersion.drop (p + 1))))
      else
        MethodResult.methodError "VersionError" "Invalid version format."
    | none =>
      MethodResult.methodError "VersionError" "Invalid version format."

/-- Abstraction of the VersionHelpers predicates used by the
getPlatformVersion branch: which version family the host OS
reports. -/
inductive WindowsLevel where
  | preWindows7
  | windows7
  | windows8
  | windows10
deriving DecidableEq

def isWindows10OrGreater : WindowsLevel → Bool
  | WindowsLevel.windows10 => true
  | _ => false

def isWindows8OrGreater : WindowsLevel → Bool
  | WindowsLevel.windows10 => true
  | WindowsLevel.windows8 => true
  | _ => false

def isWindows7OrGreater : WindowsLevel → Bool
  | WindowsLevel.windows10 => true
  | WindowsLevel.windows8 => true
  | WindowsLevel.windows7 => true
  | _ => false

/-- Shallow embedding of the getPlatformVersion branch of
HandleMethodCall, lines 296-313: the stream starts with the text
Windows followed by a space, appends 10+, 8 or 7 by the first
matching helper, appends nothing when none matches, and always
calls result->Success. -/
def getPlatformVersion (l : WindowsLevel) : MethodResult :=
  MethodResult.success
    ("Windows " ++
      (if isWindows10OrGreater l then "10+"
       else if isWindows8OrGreater l then "8"
       else if isWindows7OrGreater l then "7"
       else ""))

/-! Helper lemmas about the wait loop and the apply loop. -/

theorem runWait_countP_poll_le (env : Env) (img : String) :
    ∀ (r idx : Nat), (runWait env img idx r).countP isPoll ≤ r := by
  intro r
  induction r with
  | zero => intro idx; simp [runWait]
  | succ r ih =>
    intro idx
    rw [runWait]
    cases h : env.appRunning idx with
    | false => simp [List.countP_cons, isPoll]
    | true =>
      by_cases hr : r = 0
      · subst hr
        simp [List.countP_cons, isPoll]
      · have hih := ih (idx + 1)
        simp [hr, List.countP_cons, isPoll]
        omega

theorem runWait_delay_count (env : Env) (img : String) :
    ∀ (r idx : Nat), 0 < r →
      (runWait env img idx r).countP isWaitDelay + 1 =
        (runWait env img idx r).countP isPoll := by
  intro r
  induction r with
  | zero => intro idx h; omega
  | succ r ih =>
    intro idx _
    rw [runWait]
    cases h : env.appRunning idx with
    | false => simp [List.countP_cons, isPoll, isWaitDelay]
    | true =>
      by_cases hr : r = 0
      · subst hr
        simp [List.countP_cons, isPoll, isWaitDelay]
      · have hih := ih (idx + 1) (Nat.pos_of_ne_zero hr)
        simp [hr, List.countP_cons, isPoll, isWaitDelay]
        omega

theorem runWait_events_shape (env : Env) (img : String) :
    ∀ (r idx : Nat), ∀ e ∈ runWait env img idx r,
      e = Event.poll img ∨ e = Event.waitDelay WAIT_INTERVAL_SECONDS ∨
        e = Event.forceKill img := by
  intro r
  induction r with
  | zero => intro idx e he; simp [runWait] at he
  | succ r ih =>
    intro idx e he
    rw [runWait] at he
    cases h : env.appRunning idx with
    | false =>
      rw [h] at he
      simp at he
      exact Or.inl he
    | true =>
      rw [h] at he
      by_cases hr : r = 0
      · subst hr
        simp at he
        rcases he with h1 | h1
        · exact Or.inl h1
        · exact Or.inr (Or.inr h1)
      · rw [if_pos rfl, if_neg hr] at he
        rcases List.mem_cons.mp he with h1 | h1
        · exact Or.inl h1
        · rcases List.mem_cons.mp h1 with h2 | h2
          · exact Or.inr (Or.inl h2)
          · exact ih (idx + 1) e h2

theorem runWait_forceKill_mem (env : Env) (img : String) :
    ∀ (r idx : Nat), 0 < r →
      (∀ j, j < r → env.appRunning (idx + j) = true) →
      Event.forceKill img ∈ runWait env img idx r := by
  intro r
  induction r with
  | zero => intro idx h; omega
  | succ r ih =>
    intro idx _ hall
    have h0 : env.appRunning idx = true := by
      have := hall 0 (by omega)
      simpa using this
    rw [runWait, h0]
    by_cases hr : r = 0
    · subst hr
      simp
    · rw [if_pos rfl, if_neg hr]
      have hmem : Event.forceKill img ∈ runWait env img (idx + 1) r := by
        apply ih (idx + 1) (Nat.pos_of_ne_zero hr)
        intro j hj
        have he : idx + 1 + j = idx + (j + 1) := by omega
        rw [he]
        exact hall (j + 1) (by omega)
      simp [hmem]

theorem runWait_countP_zero (env : Env) (img : String) (p : Event → Bool)
    (h1 : ∀ s, p (Event.poll s) = false)
    (h2 : ∀ n, p (Event.waitDelay n) = false)
    (h3 : ∀ s, p (Event.forceKill s) = false) :
    ∀ (r idx : Nat), (runWait env img idx r).countP p = 0 := by
  intro r
  induction r with
  | zero => intro idx; simp [runWait]
  | succ r ih =>
    intro idx
    rw [runWait]
    cases h : env.appRunning idx with
    | false => simp [List.countP_cons, h1]
    | true =>
      by_cases hr : r = 0
      · subst hr
        simp [List.countP_cons, h1, h3]
      · simp [hr, List.countP_cons, h1, h2, ih (idx + 1)]

theorem runApply_countP_zero (env : Env) (p : Event → Bool)
    (h1 : ∀ n, p (Event.applyAttempt n) = false)
    (h2 : ∀ n, p (Event.retryDelay n) = false) :
    ∀ (r i : Nat), ((runApply env i r).1).countP p = 0 := by
  intro r
  induction r with
  | zero => intro i; simp [runApply]
  | succ r ih =>
    intro i
    rw [runApply]
    cases h : env.applyOk i with
    | true => simp [List.countP_cons, h1]
    | false =>
      by_cases hr : r = 0
      · subst hr
        simp [List.countP_cons, h1]
      · simp [hr, List.countP_cons, h1, h2, ih (i + 1)]

theorem runApply_attempts_le (env : Env) :
    ∀ (r i : Nat), ((runApply env i r).1).countP isApplyAttempt ≤ r := by
  intro r
  induction r with
  | zero => intro i; simp [runApply]
  | succ r ih =>
    intro i
    rw [runApply]
    cases h : env.applyOk i with
    | true => simp [List.countP_cons, isApplyAttempt]
    | false =>
      by_cases hr : r = 0
      · subst hr
        simp [List.countP_cons, isApplyAttempt]
      · have hih := ih (i + 1)
        simp [hr, List.countP_cons, isApplyAttempt]
        omega

theorem runApply_delay_count (env : Env) :
    ∀ (r i : Nat), 0 < r →
      ((runApply env i r).1).countP isRetryDelay + 1 =
        ((runApply env i r).1).countP isApplyAttempt := by
  intro r
  induction r with
  | zero => intro i h; omega
  | succ r ih =>
    intro i _
    rw [runApply]
    cases h : env.applyOk i with
    | true => simp [List.countP_cons, isRetryDelay, isApplyAttempt]
    | false =>
      by_cases hr : r = 0
      · subst hr
        simp [List.countP_cons, isRetryDelay, isApplyAttempt]
      · have hih := ih (i + 1) (Nat.pos_of_ne_zero hr)
        simp [hr, List.countP_cons, isRetryDelay, isApplyAttempt]
        omega

theorem runApply_events_shape (env : Env) :
    ∀ (r i : Nat), ∀ e ∈ (runApply env i r).1,
      isApplyAttempt e = true ∨ e = Event.retryDelay RETRY_DELAY_SECONDS := by
  intro r
  induction r with
  | zero => intro i e he; simp [runApply] at he
  | succ r ih =>
    intro i e he
    rw [runApply] at he
    cases h : env.applyOk i with
    | true =>
      rw [h] at he
      simp at he
      subst he
      exact Or.inl rfl
    | false =>
      rw [h] at he
      by_cases hr : r = 0
      · subst hr
        simp at he
        subst he
        exact Or.inl rfl
      · rw [if_neg (by simp), if_neg hr] at he
        rcases List.mem_cons.mp he with h1 | h1
        · subst h1
          exact Or.inl rfl
        · rcases List.mem_cons.mp h1 with h2 | h2
          · exact Or.inr h2
          · exact ih (i + 1) e h2

theorem runApply_all_fail (env : Env) :
    ∀ (r i : Nat), (∀ j, j < r → env.applyOk (i + j) = false) →
      (runApply env i r).2 = false ∧
        ((runApply env i r).1).countP isApplyAttempt = r := by
  intro r
  induction r with
  | zero => intro i _; simp [runApply]
  | succ r ih =>
    intro i hall
    have h0 : env.applyOk i = false := by
      have := hall 0 (by omega)
      simpa using this
    rw [runApply, h0]
    by_cases hr : r = 0
    · subst hr
      simp [List.countP_cons, isApplyAttempt]
    · have hrec := ih (i + 1) (by
        intro j hj
        have he : i + 1 + j = i + (j + 1) := by omega
        rw [he]
        exact hall (j + 1) (by omega))
      rw [if_neg (by simp), if_neg hr]
      refine ⟨hrec.1, ?_⟩
      simp [List.countP_cons, isApplyAttempt]
      omega

theorem runExecutor_trace_countP (P : BatParams) (env : Env) (b0 : Bool)
    (p : Event → Bool)
    (hbc : p Event.backupCreated = false) (hbd : p Event.backupDeleted = false)
    (hrb : p Event.rollbackCopy = false)
    (hrs : p (Event.removeStaging P.updateDir) = false)
    (hrl : p (Event.relaunch P.exePath) = false)
    (hda : p Event.deleteArtifact = false) :
    (runExecutor P env b0).1.countP p =
      (runWait env P.exeName 0 (MAX_WAIT_ATTEMPTS + 1)).countP p +
        ((runApply env 1 MAX_RETRY_ATTEMPTS).1).countP p := by
  cases hap : (runApply env 1 MAX_RETRY_ATTEMPTS).2 <;>
    simp [runExecutor, hap, List.countP_append, List.countP_cons, hbc, hbd,
      hrb, hrs, hrl, hda] <;>
    omega

theorem runExecutor_trace_mem (P : BatParams) (env : Env) (b0 : Bool)
    (e : Event) (he : e ∈ (runExecutor P env b0).1) :
    e ∈ runWait env P.exeName 0 (MAX_WAIT_ATTEMPTS + 1) ∨
      e ∈ ((runApply env 1 MAX_RETRY_ATTEMPTS).1) ∨
      e = Event.backupCreated ∨ e = Event.backupDeleted ∨
      e = Event.rollbackCopy ∨ e = Event.removeStaging P.updateDir ∨
      e = Event.relaunch P.exePath ∨ e = Event.deleteArtifact := by
  cases hap : (runApply env 1 MAX_RETRY_ATTEMPTS).2 <;>
    simp [runExecutor, hap, List.mem_append, List.mem_cons] at he <;>
    tauto

/-! Fixtures used by the witness theorems. -/

/-- Concrete script parameters, as RestartApp instantiates them
(lines 279-283). -/
def sampleParams : BatParams :=
  { updateDir := "update", destDir := ".", exeName := "app.exe",
    exePath := "C:\\install\\app.exe" }

/-- Oracle: the application has already exited at the first poll
and every apply attempt fails. -/
def envAllFail : Env :=
  { appRunning := fun _ => false, applyOk := fun _ => false }

/-- Oracle: the application never exits, every apply attempt
succeeds. -/
def envStuck : Env :=
  { appRunning := fun _ => true, applyOk := fun _ => true }

/-- C2: on every execution path of the Deferred Executor -
successful apply and rollback alike - the CLEANUP step removes the
staging directory exactly once and relaunches the executable
exactly once; no run ends without the relaunch. -/
theorem C2_cleanup_always_runs_once (P : BatParams) (env : Env) (b0 : Bool) :
    (runExecutor P env b0).1.countP isRelaunch = 1 ∧
      Event.relaunch P.exePath ∈ (runExecutor P env b0).1 ∧
      (runExecutor P env b0).1.countP isRemoveStaging = 1 ∧
      Event.removeStaging P.updateDir ∈ (runExecutor P env b0).1 ∧
      Phase.cleanupP ∈ (runExecutor P env b0).2.map Snap.phase := by
  have hw1 := runWait_countP_zero env P.exeName isRelaunch
    (fun _ => rfl) (fun _ => rfl) (fun _ => rfl) (MAX_WAIT_ATTEMPTS + 1) 0
  have hw2 := runWait_countP_zero env P.exeName isRemoveStaging
    (fun _ => rfl) (fun _ => rfl) (fun _ => rfl) (MAX_WAIT_ATTEMPTS + 1) 0
  have ha1 := runApply_countP_zero env isRelaunch
    (fun _ => rfl) (fun _ => rfl) MAX_RETRY_ATTEMPTS 1
  have ha2 := runApply_countP_zero env isRemoveStaging
    (fun _ => rfl) (fun _ => rfl) MAX_RETRY_ATTEMPTS 1
  cases hap : (runApply env 1 MAX_RETRY_ATTEMPTS).2 <;>
    simp [runExecutor, hap, List.countP_append, List.countP_cons,
      List.mem_append, List.mem_cons, hw1, hw2, ha1, ha2, isRelaunch,
      isRemoveStaging]

/-- C3: the APPLY step performs at most MAX_RETRY_ATTEMPTS = 3
copy attempts, every delay between consecutive attempts is
RETRY_DELAY_SECONDS = 2, and when all three attempts fail the
machine transitions to ROLLBACK having performed exactly three
attempts, never a further retry. -/
theorem C3_apply_retry_bound (P : BatParams) (env : Env) (b0 : Bool) :
    ((runExecutor P env b0).1.countP isApplyAttempt ≤ MAX_RETRY_ATTEMPTS ∧
      MAX_RETRY_ATTEMPTS = 3) ∧
      ((runExecutor P env b0).1.countP isRetryDelay + 1 =
        (runExecutor P env b0).1.countP isApplyAttempt) ∧
      (∀ e ∈ (runExecutor P env b0).1, isRetryDelay e = true →
        e = Event.retryDelay RETRY_DELAY_SECONDS) ∧
      RETRY_DELAY_SECONDS = 2 ∧
      (env.applyOk 1 = false → env.applyOk 2 = false →
        env.applyOk 3 = false →
        Phase.rollbackP ∈ (runExecutor P env b0).2.map Snap.phase ∧
          (runExecutor P env b0).1.countP isApplyAttempt =
            MAX_RETRY_ATTEMPTS) := by
  have hdec := runExecutor_trace_countP P env b0 isApplyAttempt
    rfl rfl rfl rfl rfl rfl
  have hdec2 := runExecutor_trace_countP P env b0 isRetryDelay
    rfl rfl rfl rfl rfl rfl
  have hwz := runWait_countP_zero env P.exeName isApplyAttempt
    (fun _ => rfl) (fun _ => rfl) (fun _ => rfl) (MAX_WAIT_ATTEMPTS + 1) 0
  have hwz2 := runWait_countP_zero env P.exeName isRetryDelay
    (fun _ => rfl) (fun _ => rfl) (fun _ => rfl) (MAX_WAIT_ATTEMPTS + 1) 0
  refine ⟨⟨?_, rfl⟩, ?_, ?_, rfl, ?_⟩
  · rw [hdec, hwz]
    have := runApply_attempts_le env MAX_RETRY_ATTEMPTS 1
    omega
  · rw [hdec, hdec2, hwz, hwz2]
    have := runApply_delay_count env MAX_RETRY_ATTEMPTS 1 (by decide)
    omega
  · intro e he hd
    rcases runExecutor_trace_mem P env b0 e he with h | h | h | h | h | h | h | h
    · rcases runWait_events_shape env P.exeName (MAX_WAIT_ATTEMPTS + 1) 0 e h with
        h1 | h1 | h1 <;> subst h1 <;> simp [isRetryDelay] at hd
    · rcases runApply_events_shape env MAX_RETRY_ATTEMPTS 1 e h with h1 | h1
      · cases e <;> simp [isApplyAttempt] at h1 <;>
          simp [isRetryDelay] at hd
      · exact h1
    all_goals (subst h; simp [isRetryDelay] at hd)
  · intro h1 h2 h3
    have hall : ∀ j, j < MAX_RETRY_ATTEMPTS → env.applyOk (1 + j) = false := by
      intro j hj
      have hj3 : j < 3 := hj
      interval_cases j <;> simpa
    have hfail := runApply_all_fail env MAX_RETRY_ATTEMPTS 1 hall
    constructor
    · simp [runExecutor, hfail.1, List.mem_cons]
    · rw [hdec, hwz, hfail.2]
      omega

/-- C4: the claim (and the intent of the code: the constant
MAX_WAIT_ATTEMPTS = 5 of line 109 and the Attempt %COUNT%/5 echo
of line 129) is at most five polls, but the script slips: cmd.exe
expands percent-COUNT inside the parenthesized if-block at parse
time, before the set /a increment of that iteration executes, and
no delayed expansion is enabled, so the GEQ test compares the
pre-increment value and the force kill only fires at the SIXTH
consecutive running poll.  This theorem evaluates the code at the
failing input - an application still listed by tasklist at every
poll: the trace holds six polls, not five, with five one second
delays between them (every waitDelay event carries one second),
then the force kill, and the machine still proceeds to BACKUP. -/
theorem C4_wait_exit_six_polls :
    (runExecutor sampleParams envStuck false).1.countP isPoll =
        MAX_WAIT_ATTEMPTS + 1 ∧
      MAX_WAIT_ATTEMPTS = 5 ∧
      (runExecutor sampleParams envStuck false).1.countP isWaitDelay =
        MAX_WAIT_ATTEMPTS ∧
      (runExecutor sampleParams envStuck false).1.countP
          (fun e => e == Event.waitDelay WAIT_INTERVAL_SECONDS) =
        MAX_WAIT_ATTEMPTS ∧
      Event.forceKill sampleParams.exeName ∈
        (runExecutor sampleParams envStuck false).1 ∧
      Phase.backupP ∈
        (runExecutor sampleParams envStuck false).2.map Snap.phase := by
  decide

/-- C6: with no stale backup directory at script start, every
phase entry snapshot of every run satisfies: the backup directory
exists exactly while the machine is inside the APPLY or ROLLBACK
phase (the backup is created by BACKUP just before APPLY begins
and is deleted both on apply success and at the end of rollback -
even a failed rollback - so it never outlives the run). -/
theorem C6_backup_exists_iff_apply_phase (P : BatParams) (env : Env)
    (s : Snap) (hs : s ∈ (runExecutor P env false).2) :
    s.backupExists = true ↔
      (s.phase = Phase.applyP ∨ s.phase = Phase.rollbackP) := by
  cases hap : (runApply env 1 MAX_RETRY_ATTEMPTS).2
  · simp [runExecutor, hap, List.mem_cons] at hs
    rcases hs with rfl | rfl | rfl | rfl | rfl | rfl <;> simp
  · simp [runExecutor, hap, List.mem_cons] at hs
    rcases hs with rfl | rfl | rfl | rfl | rfl <;> simp

/-- Witness for C3 at a concrete oracle where all three apply
attempts fail: the machine reaches ROLLBACK after exactly three
attempts, and a concrete retry delay event carries two seconds. -/
theorem C3_apply_retry_bound_witness :
    Phase.rollbackP ∈ (runExecutor sampleParams envAllFail false).2.map
        Snap.phase ∧
      (runExecutor sampleParams envAllFail false).1.countP isApplyAttempt =
        MAX_RETRY_ATTEMPTS :=
  (C3_apply_retry_bound sampleParams envAllFail false).2.2.2.2 rfl rfl rfl

/-- Witness for C6 at a concrete run and the APPLY entry
snapshot. -/
theorem C6_backup_exists_iff_apply_phase_witness :
    (Snap.mk Phase.applyP true ∈
        (runExecutor sampleParams envAllFail false).2) ∧
      ((Snap.mk Phase.applyP true).backupExists = true ↔
        ((Snap.mk Phase.applyP true).phase = Phase.applyP ∨
          (Snap.mk Phase.applyP true).phase = Phase.rollbackP)) :=
  ⟨by decide,
    C6_backup_exists_iff_apply_phase sampleParams envAllFail
      (Snap.mk Phase.applyP true) (by decide)⟩

/-! Filesystem level lemmas and claims. -/

theorem runApplyFS_succ (env : FsEnv) (pkg : RootFS) (i r : Nat)
    (cur : RootFS) :
    runApplyFS env pkg i (r + 1) cur =
      if env.applyOk i then (overlayFS cur pkg, true)
      else if r = 0 then (env.applyEffect i cur, false)
      else runApplyFS env pkg (i + 1) r (env.applyEffect i cur) := rfl

theorem runApplyFS_all_fail (env : FsEnv) (pkg : RootFS) :
    ∀ (r i : Nat) (cur : RootFS),
      (∀ j, j < r → env.applyOk (i + j) = false) →
      ∃ cur2, runApplyFS env pkg i r cur = (cur2, false) := by
  intro r
  induction r with
  | zero => intro i cur _; exact ⟨cur, rfl⟩
  | succ r ih =>
    intro i cur hall
    have h0 : env.applyOk i = false := by simpa using hall 0 (by omega)
    rw [runApplyFS_succ, h0, if_neg Bool.false_ne_true]
    by_cases hr : r = 0
    · rw [if_pos hr]
      exact ⟨env.applyEffect i cur, rfl⟩
    · rw [if_neg hr]
      apply ih (i + 1) (env.applyEffect i cur)
      intro j hj
      have he : i + 1 + j = i + (j + 1) := by omega
      rw [he]
      exact hall (j + 1) (by omega)

theorem backupOf_files_sub (fs : RootFS) (n : String) (c : List Nat)
    (hb : (backupOf fs).files n = some c) : fs.files n = some c := by
  simp only [backupOf] at hb
  split_ifs at hb <;> simp_all

theorem backupOf_dirs_sub (fs : RootFS) (n : String) (t : DirTree)
    (hb : (backupOf fs).dirs n = some t) : fs.dirs n = some t := by
  simp only [backupOf] at hb
  split_ifs at hb <;> simp_all

/-- C5: if every APPLY attempt fails, the ROLLBACK copy restores
every file that existed in the Backup - top level files as well
as files inside backed up directories - to its pre-update byte
content; composing BACKUP and ROLLBACK is the identity for those
files, whatever the failed apply attempts did to the root
(rollback is a left inverse of backup for untouched files). -/
theorem C5_rollback_left_inverse (env : FsEnv) (root0 pkg : RootFS)
    (h1 : env.applyOk 1 = false) (h2 : env.applyOk 2 = false)
    (h3 : env.applyOk 3 = false) :
    (∀ (n : String) (c : List Nat),
      (backupOf root0).files n = some c →
      (deferredExecutorFS env root0 pkg).1.files n = some c ∧
        root0.files n = some c) ∧
    (∀ (d q : String) (t : DirTree) (c : List Nat),
      (backupOf root0).dirs d = some t → t q = some c →
      (∃ t2, (deferredExecutorFS env root0 pkg).1.dirs d = some t2 ∧
        t2 q = some c) ∧
      (∃ t0, root0.dirs d = some t0 ∧ t0 q = some c)) := by
  have hall : ∀ j, j < MAX_RETRY_ATTEMPTS → env.applyOk (1 + j) = false := by
    intro j hj
    have hj3 : j < 3 := hj
    interval_cases j <;> simpa
  obtain ⟨cur2, hcur⟩ :=
    runApplyFS_all_fail env pkg MAX_RETRY_ATTEMPTS 1 root0 hall
  constructor
  · intro n c hb
    refine ⟨?_, backupOf_files_sub root0 n c hb⟩
    simp [deferredExecutorFS, hcur, overlayFS, hb]
  · intro d q t c hbd htq
    refine ⟨?_, ⟨t, backupOf_dirs_sub root0 d t hbd, htq⟩⟩
    refine ⟨mergeTree (cur2.dirs d) t, ?_, ?_⟩
    · simp [deferredExecutorFS, hcur, overlayFS, hbd]
    · simp [mergeTree, htq]

/-- Oracle in which every filesystem level apply attempt fails and
a failed attempt wipes the whole root (worst case damage). -/
def envFsAllFail : FsEnv :=
  { applyOk := fun _ => false,
    applyEffect := fun _ _ =>
      { files := fun _ => none, dirs := fun _ => none } }

/-- Concrete pre-update installation root for the witnesses. -/
def witnessRoot : RootFS :=
  { files := fun n => if n = "app.exe" then some [1, 2] else none,
    dirs := fun n =>
      if n = "assets" then
        some (fun q => if q = "d.txt" then some [3] else none)
      else none }

/-- An empty staging package. -/
def emptyFS : RootFS :=
  { files := fun _ => none, dirs := fun _ => none }

/-- Witness for C5: a concrete root whose only file is wiped by
every failed apply attempt is restored byte for byte. -/
theorem C5_rollback_left_inverse_witness :
    (backupOf witnessRoot).files "app.exe" = some [1, 2] ∧
      (deferredExecutorFS envFsAllFail witnessRoot emptyFS).1.files
          "app.exe" = some [1, 2] ∧
      witnessRoot.files "app.exe" = some [1, 2] := by
  have h := (C5_rollback_left_inverse envFsAllFail witnessRoot emptyFS
    rfl rfl rfl).1 "app.exe" [1, 2] (by simp [backupOf, witnessRoot])
  exact ⟨by simp [backupOf, witnessRoot], h.1, h.2⟩

/-- Concrete installation root containing the staging directory
update, as it always does when an update is staged. -/
def cexRoot : RootFS :=
  { files := fun n => if n = "app.exe" then some [1, 2] else none,
    dirs := fun n =>
      if n = "update" then
        some (fun q => if q = "new.bin" then some [7] else none)
      else none }

/-- C8 counterexample: the top level directory named update is an
entry of the installation root distinct from both the backup area
and the executor artifact, yet the BACKUP step does not mirror it
into the Backup - the directory loop excludes the name update as
a third exclusion (script line 163), refuting the claim that
exactly the two named entries are excluded. -/
theorem C8_cex_update_dir_not_backed_up :
    ("update" : String) ≠ "backup" ∧
      ("update" : String) ≠ "update_script.bat" ∧
      (∃ t, cexRoot.dirs "update" = some t ∧ t "new.bin" = some [7]) ∧
      (backupOf cexRoot).dirs "update" = none := by
  refine ⟨by decide, by decide,
    ⟨fun q => if q = "new.bin" then some [7] else none, ?_, ?_⟩, ?_⟩ <;>
    simp [cexRoot, backupOf]

/-- C8 amended: the BACKUP step mirrors every top level file of
the installation root except the names backup and
update_script.bat, and every top level directory except the names
backup and update (the staging directory); the exclusion set thus
has three names, not two. -/
theorem C8_backup_exclusions (fs : RootFS) (n : String) :
    (n ≠ "backup" → n ≠ "update_script.bat" →
      (backupOf fs).files n = fs.files n) ∧
      (n ≠ "backup" → n ≠ "update" →
        (backupOf fs).dirs n = fs.dirs n) ∧
      (backupOf fs).files "backup" = none ∧
      (backupOf fs).files "update_script.bat" = none ∧
      (backupOf fs).dirs "backup" = none ∧
      (backupOf fs).dirs "update" = none := by
  refine ⟨fun h1 h2 => ?_, fun h1 h2 => ?_, ?_, ?_, ?_, ?_⟩ <;>
    simp [backupOf, *]

/-- Witness for C8 amended at the name data.dll, excluded by
neither loop. -/
theorem C8_backup_exclusions_witness :
    (backupOf cexRoot).files "data.dll" = cexRoot.files "data.dll" ∧
      (backupOf cexRoot).dirs "data.dll" = cexRoot.dirs "data.dll" :=
  ⟨(C8_backup_exclusions cexRoot "data.dll").1 (by decide) (by decide),
    (C8_backup_exclusions cexRoot "data.dll").2.1 (by decide) (by decide)⟩

/-! Claims about the in-process half (RestartApp and the RPC
methods). -/

/-- C1 counterexample: in a host state where CreateProcess fails,
RestartApp still reaches ExitProcess(0) and surfaces no error to
the RPC caller - termination is not skipped and no SpawnError
exists anywhere in the code (runBatFile only logs to cerr and
returns void, and RestartApp continues unconditionally). -/
theorem C1_cex_spawn_failure_still_terminates :
    (restartApp (SysEnv.mk true false)).spawnSucceeded = false ∧
      (restartApp (SysEnv.mk true false)).processTerminated = true ∧
      (restartApp (SysEnv.mk true false)).surfacedError = none :=
  ⟨rfl, rfl, rfl⟩

/-- C1 amended: RestartApp terminates the current process
unconditionally and never surfaces an error to the caller; a
failure to spawn the executor is only logged to stderr, exactly
when CreateProcess fails, before termination. -/
theorem C1_amended_unconditional_termination (env : SysEnv) :
    (restartApp env).processTerminated = true ∧
      (restartApp env).surfacedError = none ∧
      (restartApp env).spawnAttempted = true ∧
      ((restartApp env).spawnErrorLogged = true ↔ env.canSpawn = false) := by
  refine ⟨rfl, rfl, rfl, ?_⟩
  cases h : env.canSpawn <;> simp [restartApp, h]

/-- C7 counterexample: in a host state where the script file
cannot be written, RestartApp still spawns the executor process
and terminates the current process, surfacing no error - there is
no PersistenceError in the code and the update path is not
stopped. -/
theorem C7_cex_write_failure_still_proceeds :
    (restartApp (SysEnv.mk false true)).artifactWritten = false ∧
      (restartApp (SysEnv.mk false true)).spawnAttempted = true ∧
      (restartApp (SysEnv.mk false true)).processTerminated = true ∧
      (restartApp (SysEnv.mk false true)).surfacedError = none :=
  ⟨rfl, rfl, rfl, rfl⟩

/-- C7 amended: when the executor artifact cannot be written,
createBatFile only logs to stderr; RestartApp nevertheless calls
CreateProcess on the (missing) script and terminates the current
process, and no error reaches the RPC caller. -/
theorem C7_amended_write_failure_logged_only (env : SysEnv)
    (h : env.canWriteArtifact = false) :
    (restartApp env).artifactWritten = false ∧
      (restartApp env).writeErrorLogged = true ∧
      (restartApp env).spawnAttempted = true ∧
      (restartApp env).processTerminated = true ∧
      (restartApp env).surfacedError = none := by
  simp [restartApp, h]

/-- Witness for C7 amended at the concrete host state where the
write fails and the spawn would succeed. -/
theorem C7_amended_write_failure_logged_only_witness :
    (restartApp (SysEnv.mk false true)).artifactWritten = false ∧
      (restartApp (SysEnv.mk false true)).writeErrorLogged = true ∧
      (restartApp (SysEnv.mk false true)).spawnAttempted = true ∧
      (restartApp (SysEnv.mk false true)).processTerminated = true ∧
      (restartApp (SysEnv.mk false true)).surfacedError = none :=
  C7_amended_write_failure_logged_only (SysEnv.mk false true) rfl

/-- C9: getCurrentVersion on product version 1.2.3+45 returns 45,
on 1.2.3 (no separator) fails with VersionError, and fails with a
VersionError whenever the version resource, its translation table
or the separator is missing or malformed (each Win32 query failure
yields its own message, a trailing separator or an absent
separator yields the invalid format message). -/
theorem C9_getCurrentVersion_build_suffix :
    getCurrentVersion ⟨true, true, true, true, "1.2.3+45".toList⟩ =
        MethodResult.success "45" ∧
      getCurrentVersion ⟨true, true, true, true, "1.2.3".toList⟩ =
        MethodResult.methodError "VersionError" "Invalid version format." ∧
      getCurrentVersion ⟨false, true, true, true, "1.2.3+45".toList⟩ =
        MethodResult.methodError "VersionError"
          "Unable to get version size." ∧
      getCurrentVersion ⟨true, false, true, true, "1.2.3+45".toList⟩ =
        MethodResult.methodError "VersionError"
          "Unable to get version info." ∧
      getCurrentVersion ⟨true, true, false, true, "1.2.3+45".toList⟩ =
        MethodResult.methodError "VersionError"
          "Unable to get translation info." ∧
      getCurrentVersion ⟨true, true, true, false, "1.2.3+45".toList⟩ =
        MethodResult.methodError "VersionError"
          "Unable to query version value." ∧
      getCurrentVersion ⟨true, true, true, true, "1.2.3+".toList⟩ =
        MethodResult.methodError "VersionError" "Invalid version format." ∧
      (∀ v : VersionInfo, findPlusIdx v.productVersion = none →
        ∃ m, getCurrentVersion v =
          MethodResult.methodError "VersionError" m) := by
  refine ⟨by decide, by decide, by decide, by decide, by decide, by decide,
    by decide, ?_⟩
  intro v hplus
  cases hq1 : v.verSizeOk <;> cases hq2 : v.verInfoOk <;>
    cases hq3 : v.translationOk <;> cases hq4 : v.queryOk <;>
    simp [getCurrentVersion, hq1, hq2, hq3, hq4, hplus]

/-- Witness for C9 at the separator-free string 1.2.3 with all
Win32 queries succeeding. -/
theorem C9_getCurrentVersion_build_suffix_witness :
    ∃ m, getCurrentVersion ⟨true, true, true, true, "1.2.3".toList⟩ =
      MethodResult.methodError "VersionError" m :=
  C9_getCurrentVersion_build_suffix.2.2.2.2.2.2.2
    ⟨true, true, true, true, "1.2.3".toList⟩ (by decide)

/-- C10: getPlatformVersion always returns Success with a string
that begins with the eight characters Windows-space; on a system
older than Windows 7 no family designator is appended, so the
result is exactly that prefix. -/
theorem C10_getPlatformVersion_families (l : WindowsLevel) :
    (∃ s, getPlatformVersion l =
        MethodResult.success ("Windows " ++ s)) ∧
      (isWindows7OrGreater l = false →
        getPlatformVersion l = MethodResult.success "Windows ") := by
  cases l
  · exact ⟨⟨"", by decide⟩, fun _ => by decide⟩
  · exact ⟨⟨"7", by decide⟩, fun h => absurd h (by decide)⟩
  · exact ⟨⟨"8", by decide⟩, fun h => absurd h (by decide)⟩
  · exact ⟨⟨"10+", by decide⟩, fun h => absurd h (by decide)⟩

/-- Witness for C10 on a pre Windows 7 system. -/
theorem C10_getPlatformVersion_families_witness :
    getPlatformVersion WindowsLevel.preWindows7 =
      MethodResult.success "Windows " :=
  (C10_getPlatformVersion_families WindowsLevel.preWindows7).2 rfl

end DesktopUpdater
